import Mathlib

/-!
Shallow embedding of the watermarking service in src/app.py: the text-layout
computation (get_optimal_font_size), the image compositor
(add_watermark_to_image), the video overlay pipeline (add_watermark_to_video),
the task registry (update_task_status, cleanup_old_tasks, the status route) and
the background worker (process_task). Python floats are modelled as rationals,
Python int() truncation as pyInt, filesystem and process side effects as
explicit effect traces, and the font library and the external ffprobe/ffmpeg
processes as environments supplying their outcomes.
-/

namespace Watermark

/-- Watermark text constant (app.py line 20). -/
def WATERMARK_TEXT : String := "OTSU LABS"

/-- Letter-spacing ratio (app.py line 22); negative, tightening kerning. -/
def LETTER_SPACING : ℚ := -4/100

/-- Overlay opacity (app.py line 23). -/
def OPACITY : ℕ := 25

/-- Target width ratio (app.py line 24; source name TARGET_WIDTH_RATIO). -/
def targetWidthRatio : ℚ := 65/100

/-- Reference font size used by get_optimal_font_size (app.py line 51). -/
def ref_size : ℚ := 100

/-- Python int() applied to a float: truncation toward zero. -/
def pyInt (q : ℚ) : ℤ := if 0 ≤ q then ⌊q⌋ else ⌈q⌉

/-- Environment supplied by the font library (PIL.ImageFont): whether the
configured font asset loads (truetype raises OSError when it does not), and
the advance width the font metrics report for a character at a given font size
(the textbbox width bbox[2] - bbox[0], app.py lines 67-69). -/
structure FontEnv where
  loadable : Bool
  charWidth : ℚ → Char → ℚ

/-- The width-accumulation loop (app.py lines 63-72, repeated at lines 98-106
and 149-157): sum over the characters of WATERMARK_TEXT of the measured width
plus spacing, with the trailing spacing removed, where
spacing = size * LETTER_SPACING. -/
def measuredTotalWidth (env : FontEnv) (size : ℚ) : ℚ :=
  (WATERMARK_TEXT.toList.foldl
    (fun acc c => acc + env.charWidth size c + size * LETTER_SPACING) 0)
  - size * LETTER_SPACING

/-- get_optimal_font_size (app.py lines 48-81). When the font asset cannot be
loaded it falls back to int(img_width * 0.1) with the default font (lines
54-57). Otherwise it measures the text at ref_size, returns ref_size when the
measured total width is nonpositive (lines 74-75), and otherwise returns
int(ref_size * scale_factor) where
scale_factor = (img_width * targetWidthRatio) / total_width (lines 77-81). -/
def get_optimal_font_size (env : FontEnv) (img_width : ℚ) : ℤ :=
  if env.loadable = false then
    pyInt (img_width * (1/10))
  else
    let total_width := measuredTotalWidth env ref_size
    if total_width ≤ 0 then
      100
    else
      let target_width := img_width * targetWidthRatio
      let scale_factor := target_width / total_width
      pyInt (ref_size * scale_factor)

/-- The layout data both compositors compute at the resolved font size
(app.py lines 95-109 and 146-160): the dynamic font size, the total width
re-measured at that size, the centered start offset
start_x = (canvas_width - total_width) / 2, and the vertical center
center_y = canvas_height / 2. -/
structure LayoutPlan where
  font_size : ℤ
  total_width : ℚ
  start_x : ℚ
  center_y : ℚ

/-- Layout computation shared by add_watermark_to_image (canvas = the image
dimensions) and add_watermark_to_video (canvas = the probed video
dimensions). -/
def renderLayout (env : FontEnv) (canvas_width canvas_height : ℚ) : LayoutPlan :=
  let font_size := get_optimal_font_size env canvas_width
  let total_width := measuredTotalWidth env (font_size : ℚ)
  ⟨font_size, total_width, (canvas_width - total_width) / 2, canvas_height / 2⟩

/-- Filesystem and external-process side effects performed by the pipeline. -/
inductive Effect
  | readFile (path : String)
  | writeFile (path : String)
  | deleteFile (path : String)
  | procRun (cmd : List String)
deriving DecidableEq

/-- Result of one run of the image compositor (add_watermark_to_image,
app.py lines 88-119): the layout drawn (none when ImageFont.truetype at line
96 raised before the layout pass), the effect trace, and the outcome. -/
structure ImageRun where
  layout : Option LayoutPlan
  effects : List Effect
  outcome : Except String Unit

/-- add_watermark_to_image (app.py lines 88-119). Opens the input raster
(line 89), computes the dynamic font size (line 95, which internally falls
back when the font is missing), then loads the truetype font at that size
(line 96, unguarded: raises OSError when the font asset is missing), measures
and draws the characters, alpha-composites, and saves the result to
output_path itself (line 119). -/
def add_watermark_to_image (env : FontEnv) (img_width img_height : ℚ)
    (input_path output_path : String) : ImageRun :=
  if env.loadable = false then
    ⟨none, [Effect.readFile input_path], Except.error "cannot open font resource"⟩
  else
    ⟨some (renderLayout env img_width img_height),
     [Effect.readFile input_path, Effect.writeFile output_path],
     Except.ok ()⟩

/-- Outcome of one subprocess invocation: success, a CalledProcessError
(nonzero exit status under check=True), or any other exception. -/
inductive ProcResult
  | success
  | calledProcessError (msg : String)
  | otherError (msg : String)
deriving DecidableEq

/-- Environment of one add_watermark_to_video run: the ffprobe result (none
when the probe raises or its output is unparsable, app.py lines 130-133), and
the outcomes of the primary ffmpeg invocation (audio copied, line 185) and of
the retry invocation (audio re-encoded, line 201). -/
structure VideoEnv where
  probe : Option (ℤ × ℤ)
  primaryEncode : ProcResult
  retryEncode : ProcResult

/-- The probed dimensions, with the fixed fallback 1920x1080 on probe failure
(app.py lines 130-136). -/
def probedDims (venv : VideoEnv) : ℤ × ℤ :=
  match venv.probe with
  | some wh => wh
  | none => (1920, 1080)

/-- The ffmpeg overlay command (app.py lines 174-183 and 191-200); the two
invocations differ only in the audio codec argument: copy vs aac. -/
def ffmpeg_cmd (input_path temp_wm_path output_path acodec : String) :
    List String :=
  ["ffmpeg", "-y", "-i", input_path, "-i", temp_wm_path,
   "-filter_complex", "overlay=0:0",
   "-c:v", "libx264", "-preset", "ultrafast", "-crf", "23",
   "-c:a", acodec, "-movflags", "+faststart", output_path]

/-- Result of one run of add_watermark_to_video: the dimensions used for the
watermark raster, the layout drawn (none when truetype raised), the effect
trace and the outcome. -/
structure VideoRun where
  width : ℤ
  height : ℤ
  layout : Option LayoutPlan
  effects : List Effect
  outcome : Except String Unit

/-- add_watermark_to_video (app.py lines 124-206). Probes the input dimensions
with fallback 1920x1080, builds the watermark raster via the same layout code
as the image path (truetype at line 147 is again unguarded, so a missing font
raises before the temp file is created), saves the raster to a transient path
(line 168), runs ffmpeg with audio copy inside a try block; on
CalledProcessError it retries once with audio re-encode, and if the retry
raises anything it raises Exception("FFmpeg failed: " + retry error) at line
203; any non-CalledProcessError from the primary invocation propagates
unhandled. The finally block (lines 204-206) deletes the transient raster on
every one of those paths. -/
def add_watermark_to_video (env : FontEnv) (venv : VideoEnv)
    (input_path output_path temp_wm_path : String) : VideoRun :=
  let wh := probedDims venv
  if env.loadable = false then
    ⟨wh.1, wh.2, none, [], Except.error "cannot open font resource"⟩
  else
    let layout := renderLayout env ((wh.1 : ℚ)) ((wh.2 : ℚ))
    let cmd_copy := ffmpeg_cmd input_path temp_wm_path output_path "copy"
    let cmd_aac := ffmpeg_cmd input_path temp_wm_path output_path "aac"
    match venv.primaryEncode with
    | ProcResult.success =>
        ⟨wh.1, wh.2, some layout,
         [Effect.writeFile temp_wm_path, Effect.procRun cmd_copy,
          Effect.deleteFile temp_wm_path],
         Except.ok ()⟩
    | ProcResult.calledProcessError _ =>
        match venv.retryEncode with
        | ProcResult.success =>
            ⟨wh.1, wh.2, some layout,
             [Effect.writeFile temp_wm_path, Effect.procRun cmd_copy,
              Effect.procRun cmd_aac, Effect.deleteFile temp_wm_path],
             Except.ok ()⟩
        | ProcResult.calledProcessError ex =>
            ⟨wh.1, wh.2, some layout,
             [Effect.writeFile temp_wm_path, Effect.procRun cmd_copy,
              Effect.procRun cmd_aac, Effect.deleteFile temp_wm_path],
             Except.error ("FFmpeg failed: " ++ ex)⟩
        | ProcResult.otherError ex =>
            ⟨wh.1, wh.2, some layout,
             [Effect.writeFile temp_wm_path, Effect.procRun cmd_copy,
              Effect.procRun cmd_aac, Effect.deleteFile temp_wm_path],
             Except.error ("FFmpeg failed: " ++ ex)⟩
    | ProcResult.otherError e =>
        ⟨wh.1, wh.2, some layout,
         [Effect.writeFile temp_wm_path, Effect.procRun cmd_copy,
          Effect.deleteFile temp_wm_path],
         Except.error e⟩

/-- Task lifecycle states (the status strings of app.py). -/
inductive Status
  | queued
  | processing
  | completed
  | failed
deriving DecidableEq

/-- The result dict stored on completion (app.py lines 226-230). -/
structure TaskResult where
  filename : String
  original_name : String
  ftype : String
deriving DecidableEq

/-- One registry entry (the dict written by update_task_status,
app.py lines 32-37). -/
structure TaskInfo where
  status : Status
  result : Option TaskResult
  error : Option String
  timestamp : ℚ
deriving DecidableEq

/-- The TASKS registry, modelled as a map from task id to entry. -/
abbrev Tasks := String → Option TaskInfo

/-- update_task_status (app.py lines 30-37): unconditionally assigns
TASKS[task_id] a fresh dict (an upsert), stamping the current time. -/
def update_task_status (tasks : Tasks) (task_id : String) (status : Status)
    (result : Option TaskResult) (error : Option String) (now : ℚ) : Tasks :=
  fun tid => if tid = task_id then some ⟨status, result, error, now⟩ else tasks tid

/-- cleanup_old_tasks (app.py lines 39-45): removes every entry whose age
current_time - timestamp is strictly greater than 3600 seconds. -/
def cleanup_old_tasks (tasks : Tasks) (now : ℚ) : Tasks :=
  fun tid =>
    match tasks tid with
    | some info => if now - info.timestamp > 3600 then none else some info
    | none => none

/-- Response of the /status/<task_id> route (app.py lines 283-291). -/
inductive StatusResponse
  | ok (info : TaskInfo)
  | notFound
deriving DecidableEq

/-- The /status/<task_id> route (app.py lines 283-291): a locked lookup, 404
when the id is absent. -/
def status_route (tasks : Tasks) (task_id : String) : StatusResponse :=
  match tasks task_id with
  | some info => StatusResponse.ok info
  | none => StatusResponse.notFound

/-- os.path.basename as used at app.py line 227. -/
def basename (path : String) : String := (path.splitOn "/").getLastD path

/-- Image extensions (app.py line 84). -/
def IMAGE_EXTS : List String := [".jpg", ".jpeg", ".png", ".bmp", ".tiff", ".webp"]

/-- Video extensions (app.py line 85). -/
def VIDEO_EXTS : List String := [".mp4", ".mov", ".avi", ".mkv", ".webm"]

/-- Everything a process_task run consumes from its surroundings: the font
environment, the video-pipeline environment, the input raster dimensions,
whether the input file still exists for cleanup, and the clock values
time.time() returns at the processing and at the terminal status update. -/
structure WorkerEnv where
  fontEnv : FontEnv
  videoEnv : VideoEnv
  img_width : ℚ
  img_height : ℚ
  inputExists : Bool
  tProcessing : ℚ
  tDone : ℚ

/-- process_task (app.py lines 209-236). Marks the task processing, renders by
extension (image compositor, video pipeline, or nothing for an unknown
extension, which still completes with file_type unknown), deletes the input
when present, and records completed with the result dict or failed with the
captured error message. Returns the updated registry and the effect trace.
The transient raster path (a uuid name, line 167) is a parameter here. -/
def process_task (wenv : WorkerEnv) (tasks : Tasks)
    (task_id input_path output_path ext original_filename temp_wm_path : String) :
    Tasks × List Effect :=
  let tasks1 := update_task_status tasks task_id Status.processing none none
    wenv.tProcessing
  let render : List Effect × Except String Unit × String :=
    if ext ∈ IMAGE_EXTS then
      let run := add_watermark_to_image wenv.fontEnv wenv.img_width
        wenv.img_height input_path output_path
      (run.effects, run.outcome, "image")
    else if ext ∈ VIDEO_EXTS then
      let run := add_watermark_to_video wenv.fontEnv wenv.videoEnv input_path
        output_path temp_wm_path
      (run.effects, run.outcome, "video")
    else ([], Except.ok (), "unknown")
  let cleanupInput := if wenv.inputExists then [Effect.deleteFile input_path] else []
  match render.2.1 with
  | Except.ok _ =>
      (update_task_status tasks1 task_id Status.completed
        (some ⟨basename output_path, original_filename, render.2.2⟩) none wenv.tDone,
       render.1 ++ cleanupInput)
  | Except.error e =>
      (update_task_status tasks1 task_id Status.failed none (some e) wenv.tDone,
       render.1 ++ cleanupInput)

/-- A loadable font whose metrics report width 74/9 for every character, so
that the 9 characters of WATERMARK_TEXT measure 74 + 8 * (-4) = 42 at the
reference size. -/
def envGeist : FontEnv := ⟨true, fun _ _ => 74/9⟩

/-- The environment in which the configured font asset cannot be loaded. -/
def envMissing : FontEnv := ⟨false, fun _ _ => 0⟩

/-- A loadable but degenerate font reporting zero width for every glyph. -/
def envZero : FontEnv := ⟨true, fun _ _ => 0⟩

end Watermark

namespace Watermark

/-- The constant-width font envGeist measures WATERMARK_TEXT at total width
9 * (74/9) + 8 * (-4) = 42 at the reference size 100. -/
theorem envGeist_total_ref : measuredTotalWidth envGeist ref_size = 42 := by
  simp only [measuredTotalWidth, WATERMARK_TEXT, envGeist, ref_size, LETTER_SPACING]
  norm_num [List.foldl]

/-- The zero-width font envZero measures WATERMARK_TEXT at total width
9 * 0 + 8 * (-4) = -32 at the reference size 100. -/
theorem envZero_total_ref : measuredTotalWidth envZero ref_size = -32 := by
  simp only [measuredTotalWidth, WATERMARK_TEXT, envZero, ref_size, LETTER_SPACING]
  norm_num [List.foldl]

/-- Claim C1 is false on the code: with the loadable constant-width font
envGeist the text measures 42 at the reference size, so at canvas width 100
the scale factor is 65/42 and ref_size * scaleFactor = 3250/21, about 154.76.
The code applies Python int() and returns 154, while rounding to the nearest
integer gives 155: the scaled size is truncated, not rounded. -/
theorem C1_counterexample :
    get_optimal_font_size envGeist 100 ≠
      round (ref_size * ((100 * targetWidthRatio) / measuredTotalWidth envGeist ref_size)) := by
  have hL : get_optimal_font_size envGeist 100 = 154 := by
    unfold get_optimal_font_size
    rw [show envGeist.loadable = true from rfl]
    rw [if_neg (by decide)]
    simp only [envGeist_total_ref]
    rw [if_neg (by norm_num)]
    unfold pyInt
    rw [if_pos (by norm_num [ref_size, targetWidthRatio])]
    norm_num [ref_size, targetWidthRatio]
  have hR : round (ref_size * ((100 * targetWidthRatio) / measuredTotalWidth envGeist ref_size))
      = 155 := by
    rw [envGeist_total_ref]
    norm_num [round_eq, ref_size, targetWidthRatio]
  rw [hL, hR]
  decide

/-- Claim C1 amended: for every nonnegative canvas width and every loadable
font whose measured total width at the reference size is positive, the font
size returned by get_optimal_font_size is the FLOOR of
referenceFontSize * scaleFactor (Python int() truncation, which is the floor
for the nonnegative values arising here), where
scaleFactor = (canvasWidth * targetWidthRatio) / totalWidth; it is not the
rounding to the nearest integer. -/
theorem C1_truncated_font_size (env : FontEnv) (img_width : ℚ)
    (hload : env.loadable = true)
    (hpos : 0 < measuredTotalWidth env ref_size)
    (hw : 0 ≤ img_width) :
    get_optimal_font_size env img_width =
      ⌊ref_size * ((img_width * targetWidthRatio) / measuredTotalWidth env ref_size)⌋ := by
  have hq : 0 ≤ ref_size * ((img_width * targetWidthRatio) / measuredTotalWidth env ref_size) := by
    have h1 : (0:ℚ) ≤ ref_size := by norm_num [ref_size]
    have h2 : (0:ℚ) ≤ img_width * targetWidthRatio :=
      mul_nonneg hw (by norm_num [targetWidthRatio])
    exact mul_nonneg h1 (div_nonneg h2 hpos.le)
  unfold get_optimal_font_size
  rw [hload]
  rw [if_neg (by decide)]
  rw [if_neg (not_le.mpr hpos)]
  unfold pyInt
  rw [if_pos hq]

/-- Claim C1 amended witness: the amended statement evaluated at envGeist and
canvas width 100, where the code returns 154 = floor(3250/21). -/
theorem C1_truncated_font_size_witness :
    envGeist.loadable = true ∧
    0 < measuredTotalWidth envGeist ref_size ∧
    (0:ℚ) ≤ 100 ∧
    get_optimal_font_size envGeist 100 =
      ⌊ref_size * ((100 * targetWidthRatio) / measuredTotalWidth envGeist ref_size)⌋ :=
  ⟨rfl, by rw [envGeist_total_ref]; norm_num, by norm_num,
    C1_truncated_font_size envGeist 100 rfl (by rw [envGeist_total_ref]; norm_num)
      (by norm_num)⟩

/-- Claim C4 (confirmed): when the font loads and the measured total width at
the reference size is zero or negative (degenerate font or empty text), the
layout computation returns the reference size 100 unscaled for every canvas
width; the embedding is a total function, so no division by zero is performed
and no exception is raised on this path. -/
theorem C4_degenerate_returns_ref (env : FontEnv) (img_width : ℚ)
    (hload : env.loadable = true)
    (hdeg : measuredTotalWidth env ref_size ≤ 0) :
    get_optimal_font_size env img_width = 100 := by
  unfold get_optimal_font_size
  rw [hload]
  rw [if_neg (by decide)]
  rw [if_pos hdeg]

/-- Claim C4 witness: the zero-width font envZero measures -32 ≤ 0 and the
code returns the reference size 100 at canvas width 500. -/
theorem C4_degenerate_returns_ref_witness :
    envZero.loadable = true ∧
    measuredTotalWidth envZero ref_size ≤ 0 ∧
    get_optimal_font_size envZero 500 = 100 :=
  ⟨rfl, by rw [envZero_total_ref]; norm_num,
    C4_degenerate_returns_ref envZero 500 rfl (by rw [envZero_total_ref]; norm_num)⟩

end Watermark

namespace Watermark

/-- A video environment in which probe and both encodes succeed. -/
def venvAllOk : VideoEnv := ⟨some (1280, 720), ProcResult.success, ProcResult.success⟩

/-- A video environment whose dimension probe fails. -/
def venvNoProbe : VideoEnv := ⟨none, ProcResult.success, ProcResult.success⟩

/-- Primary encode fails with CalledProcessError, the retry succeeds. -/
def venvRetryOk : VideoEnv :=
  ⟨some (1280, 720), ProcResult.calledProcessError "primary-error", ProcResult.success⟩

/-- Both encodes fail; the primary error message is primary-error-A. -/
def venvRetryFailA : VideoEnv :=
  ⟨some (1280, 720), ProcResult.calledProcessError "primary-error-A",
   ProcResult.calledProcessError "retry-error"⟩

/-- Both encodes fail; identical to venvRetryFailA except for the primary
error message. -/
def venvRetryFailB : VideoEnv :=
  ⟨some (1280, 720), ProcResult.calledProcessError "primary-error-B",
   ProcResult.calledProcessError "retry-error"⟩

/-- When the font loads, a video run uses the probed-or-default dimensions and
draws the layout computed at them, on every encode branch. -/
theorem video_run_loadable (env : FontEnv) (venv : VideoEnv)
    (input output temp : String) (hload : env.loadable = true) :
    (add_watermark_to_video env venv input output temp).layout =
      some (renderLayout env ((probedDims venv).1 : ℚ) ((probedDims venv).2 : ℚ)) ∧
    (add_watermark_to_video env venv input output temp).width = (probedDims venv).1 ∧
    (add_watermark_to_video env venv input output temp).height = (probedDims venv).2 := by
  cases hpe : venv.primaryEncode <;> cases hre : venv.retryEncode <;>
    simp [add_watermark_to_video, hload, hpe, hre]

/-- Claim C5 (confirmed): every layout the compositors compute is horizontally
symmetric: startX + totalWidth / 2 = canvasWidth / 2 exactly, where the canvas
width is the image width on the image path (app.py line 108) and the probed
video width on the video path (app.py line 159). -/
theorem C5_horizontal_symmetry (env : FontEnv) (venv : VideoEnv)
    (img_width img_height : ℚ) (input output temp : String) (pl pv : LayoutPlan)
    (himg : (add_watermark_to_image env img_width img_height input output).layout = some pl)
    (hvid : (add_watermark_to_video env venv input output temp).layout = some pv) :
    pl.start_x + pl.total_width / 2 = img_width / 2 ∧
    pv.start_x + pv.total_width / 2 =
      (((add_watermark_to_video env venv input output temp).width : ℚ)) / 2 := by
  by_cases hload : env.loadable = false
  · simp [add_watermark_to_image, hload] at himg
  · have hload' : env.loadable = true := by
      cases h : env.loadable
      · exact absurd h hload
      · rfl
    have hv := video_run_loadable env venv input output temp hload'
    constructor
    · simp [add_watermark_to_image, hload'] at himg
      subst himg
      simp [renderLayout]
      ring
    · rw [hvid] at hv
      rw [Option.some_inj] at hv
      rcases hv with ⟨hpl, hw, _⟩
      rw [hw, hpl]
      simp [renderLayout]
      ring

/-- Claim C5 witness: a concrete image-and-video pair of runs under the
loadable font envGeist, with both layouts present. -/
theorem C5_horizontal_symmetry_witness :
    (add_watermark_to_image envGeist 1000 800 "uploads/a.png" "output/b.png").layout =
      some (renderLayout envGeist 1000 800) ∧
    (add_watermark_to_video envGeist venvAllOk "in.mp4" "out.mp4" "wm.png").layout =
      some (renderLayout envGeist 1280 720) ∧
    (renderLayout envGeist 1000 800).start_x +
        (renderLayout envGeist 1000 800).total_width / 2 = 1000 / 2 ∧
    (renderLayout envGeist 1280 720).start_x +
        (renderLayout envGeist 1280 720).total_width / 2 =
      (((add_watermark_to_video envGeist venvAllOk "in.mp4" "out.mp4" "wm.png").width : ℚ)) / 2 := by
  refine ⟨by simp [add_watermark_to_image, envGeist], ?_, ?_⟩
  · simp [add_watermark_to_video, envGeist, venvAllOk, probedDims]
  · have h := C5_horizontal_symmetry envGeist venvAllOk 1000 800 "in.mp4" "out.mp4" "wm.png"
      (renderLayout envGeist 1000 800) (renderLayout envGeist 1280 720)
      (by simp [add_watermark_to_image, envGeist])
      (by simp [add_watermark_to_video, envGeist, venvAllOk, probedDims])
    exact h

end Watermark

namespace Watermark

/-- An empty registry. -/
def tasksEmpty : Tasks := fun _ => none

/-- A worker environment with the loadable constant-width font, a fully
successful video pipeline, a 1000x800 input raster, an existing input file,
and clock readings 10 and 20 for the two status updates. -/
def wenvOk : WorkerEnv := ⟨envGeist, venvAllOk, 1000, 800, true, 10, 20⟩

/-- The same worker environment with the font asset missing. -/
def wenvNoFont : WorkerEnv := ⟨envMissing, venvAllOk, 1000, 800, true, 10, 20⟩

/-- Claim C2 is false on the code: add_watermark_to_image itself writes the
composited result to storage — out.save(output_path) at app.py line 119 is
inside the compositor, so its effect trace contains the write of the output
artifact. Shown on a concrete run. -/
theorem C2_counterexample :
    Effect.writeFile "output/watermarked_t2.png" ∈
      (add_watermark_to_image envGeist 1000 800 "uploads/t2.png"
        "output/watermarked_t2.png").effects := by
  simp [add_watermark_to_image, envGeist]

/-- Claim C2 amended: the compositor has no side effect beyond reading the
input and writing the composited output, but the write of the output artifact
to storage is performed by add_watermark_to_image itself (app.py line 119),
not separately by the orchestrator: on the image path, process_task only
appends the input-cleanup delete to the compositor trace and performs no
write of its own. -/
theorem C2_compositor_writes (wenv : WorkerEnv) (tasks : Tasks)
    (task_id input output original temp : String)
    (hload : wenv.fontEnv.loadable = true) :
    (add_watermark_to_image wenv.fontEnv wenv.img_width wenv.img_height
        input output).effects =
      [Effect.readFile input, Effect.writeFile output] ∧
    (process_task wenv tasks task_id input output ".png" original temp).2 =
      [Effect.readFile input, Effect.writeFile output] ++
        (if wenv.inputExists then [Effect.deleteFile input] else []) := by
  constructor
  · simp [add_watermark_to_image, hload]
  · simp [process_task, add_watermark_to_image, hload, IMAGE_EXTS]

/-- Claim C2 amended witness: the amended statement at a concrete image run. -/
theorem C2_compositor_writes_witness :
    wenvOk.fontEnv.loadable = true ∧
    ((add_watermark_to_image wenvOk.fontEnv wenvOk.img_width wenvOk.img_height
        "uploads/t2.png" "output/watermarked_t2.png").effects =
      [Effect.readFile "uploads/t2.png", Effect.writeFile "output/watermarked_t2.png"] ∧
    (process_task wenvOk tasksEmpty "t2" "uploads/t2.png" "output/watermarked_t2.png"
        ".png" "photo.png" "wm.png").2 =
      [Effect.readFile "uploads/t2.png", Effect.writeFile "output/watermarked_t2.png"] ++
        (if wenvOk.inputExists then [Effect.deleteFile "uploads/t2.png"] else [])) :=
  ⟨rfl, C2_compositor_writes wenvOk tasksEmpty "t2" "uploads/t2.png"
    "output/watermarked_t2.png" "photo.png" "wm.png" rfl⟩

/-- Claim C3 is false on the code: when the font asset cannot be loaded, only
get_optimal_font_size recovers with the fallback size; add_watermark_to_image
then calls ImageFont.truetype unguarded (app.py line 96) and the OSError
propagates, so process_task records the task failed with the font-load error
rather than completing. Shown on a concrete image task. -/
theorem C3_counterexample :
    (process_task wenvNoFont tasksEmpty "t3" "uploads/t3.png"
        "output/watermarked_t3.png" ".png" "photo.png" "wm.png").1 "t3" =
      some ⟨Status.failed, none, some "cannot open font resource", 20⟩ := by
  simp [process_task, add_watermark_to_image, wenvNoFont, envMissing,
    update_task_status, IMAGE_EXTS, tasksEmpty]

/-- Claim C3 amended: on font-load failure the size computation alone recovers
(get_optimal_font_size returns int(canvasWidth * 0.1) using the default font),
but both rendering paths then load the truetype font unguarded (app.py lines
96 and 147) and raise, so an image task and a video task are both recorded
failed with the font-load error instead of completing. -/
theorem C3_font_failure_fails_task (wenv : WorkerEnv) (tasks : Tasks)
    (task_id input output original temp : String) (w : ℚ)
    (hmiss : wenv.fontEnv.loadable = false) :
    get_optimal_font_size wenv.fontEnv w = pyInt (w * (1/10)) ∧
    (process_task wenv tasks task_id input output ".png" original temp).1 task_id =
      some ⟨Status.failed, none, some "cannot open font resource", wenv.tDone⟩ ∧
    (process_task wenv tasks task_id input output ".mp4" original temp).1 task_id =
      some ⟨Status.failed, none, some "cannot open font resource", wenv.tDone⟩ := by
  refine ⟨?_, ?_, ?_⟩
  · unfold get_optimal_font_size
    rw [hmiss]
    rw [if_pos rfl]
  · simp [process_task, add_watermark_to_image, hmiss, update_task_status, IMAGE_EXTS]
  · simp [process_task, add_watermark_to_video, hmiss, update_task_status,
      IMAGE_EXTS, VIDEO_EXTS]

/-- Claim C3 amended witness: the amended statement at the concrete missing
font environment, canvas width 1000. -/
theorem C3_font_failure_fails_task_witness :
    wenvNoFont.fontEnv.loadable = false ∧
    (get_optimal_font_size wenvNoFont.fontEnv 1000 = pyInt (1000 * (1/10)) ∧
    (process_task wenvNoFont tasksEmpty "t3b" "uploads/t3b.png"
        "output/watermarked_t3b.png" ".png" "photo.png" "wm.png").1 "t3b" =
      some ⟨Status.failed, none, some "cannot open font resource", wenvNoFont.tDone⟩ ∧
    (process_task wenvNoFont tasksEmpty "t3b" "uploads/t3b.png"
        "output/watermarked_t3b.png" ".mp4" "photo.png" "wm.png").1 "t3b" =
      some ⟨Status.failed, none, some "cannot open font resource", wenvNoFont.tDone⟩) :=
  ⟨rfl, C3_font_failure_fails_task wenvNoFont tasksEmpty "t3b" "uploads/t3b.png"
    "output/watermarked_t3b.png" "photo.png" "wm.png" 1000 rfl⟩

end Watermark

namespace Watermark

/-- Claim C6 (confirmed): when the dimension probe of the source video fails
(ffprobe raises or its output is unparsable), add_watermark_to_video does not
abort: it proceeds with the fixed default resolution 1920x1080, sizes the
watermark from it (the drawn layout is the one computed at canvas 1920x1080),
and still reaches the encoding step — the primary ffmpeg invocation appears in
the effect trace. The font is assumed loadable, since otherwise the raster
step raises for an unrelated reason before encoding. -/
theorem C6_probe_fallback (env : FontEnv) (venv : VideoEnv)
    (input output temp : String)
    (hprobe : venv.probe = none) (hload : env.loadable = true) :
    (add_watermark_to_video env venv input output temp).width = 1920 ∧
    (add_watermark_to_video env venv input output temp).height = 1080 ∧
    (add_watermark_to_video env venv input output temp).layout =
      some (renderLayout env 1920 1080) ∧
    Effect.procRun (ffmpeg_cmd input temp output "copy") ∈
      (add_watermark_to_video env venv input output temp).effects := by
  have hd : probedDims venv = (1920, 1080) := by simp [probedDims, hprobe]
  cases hpe : venv.primaryEncode <;> cases hre : venv.retryEncode <;>
    simp [add_watermark_to_video, hload, hpe, hre, hd]

/-- Claim C6 witness: a concrete run whose probe failed, under the loadable
font envGeist with both encodes succeeding. -/
theorem C6_probe_fallback_witness :
    venvNoProbe.probe = none ∧ envGeist.loadable = true ∧
    ((add_watermark_to_video envGeist venvNoProbe "in.mp4" "out.mp4" "wm.png").width = 1920 ∧
    (add_watermark_to_video envGeist venvNoProbe "in.mp4" "out.mp4" "wm.png").height = 1080 ∧
    (add_watermark_to_video envGeist venvNoProbe "in.mp4" "out.mp4" "wm.png").layout =
      some (renderLayout envGeist 1920 1080) ∧
    Effect.procRun (ffmpeg_cmd "in.mp4" "wm.png" "out.mp4" "copy") ∈
      (add_watermark_to_video envGeist venvNoProbe "in.mp4" "out.mp4" "wm.png").effects) :=
  ⟨rfl, rfl, C6_probe_fallback envGeist venvNoProbe "in.mp4" "out.mp4" "wm.png" rfl rfl⟩

/-- Claim C7 is false in its error-reporting clause: when the retry also fails
the pipeline raises Exception("FFmpeg failed: " + retry error) (app.py line
203), built from the retry error alone; the primary error is only printed.
Two concrete runs that differ only in the primary-encode error message surface
the very same failure, so the surfaced failure does not report the combined
error. -/
theorem C7_counterexample :
    (add_watermark_to_video envGeist venvRetryFailA "in.mp4" "out.mp4" "wm.png").outcome =
      Except.error "FFmpeg failed: retry-error" ∧
    (add_watermark_to_video envGeist venvRetryFailB "in.mp4" "out.mp4" "wm.png").outcome =
      (add_watermark_to_video envGeist venvRetryFailA "in.mp4" "out.mp4" "wm.png").outcome := by
  constructor <;>
    simp [add_watermark_to_video, envGeist, venvRetryFailA, venvRetryFailB]

/-- Claim C7 amended: if the primary invocation fails with CalledProcessError,
the pipeline retries exactly once with audio re-encoding — the trace holds
exactly the primary invocation followed by one aac invocation between the
raster save and the raster delete; if the retry succeeds, the run completes;
if the retry fails (with any exception), the pipeline raises a failure that
reports the retry error alone, prefixed with "FFmpeg failed: " — not the
combined error. -/
theorem C7_retry_once (env : FontEnv) (venv : VideoEnv)
    (input output temp : String) (e : String)
    (hload : env.loadable = true)
    (hprim : venv.primaryEncode = ProcResult.calledProcessError e) :
    (add_watermark_to_video env venv input output temp).effects =
      [Effect.writeFile temp,
       Effect.procRun (ffmpeg_cmd input temp output "copy"),
       Effect.procRun (ffmpeg_cmd input temp output "aac"),
       Effect.deleteFile temp] ∧
    (venv.retryEncode = ProcResult.success →
      (add_watermark_to_video env venv input output temp).outcome = Except.ok ()) ∧
    (∀ ex, venv.retryEncode = ProcResult.calledProcessError ex →
      (add_watermark_to_video env venv input output temp).outcome =
        Except.error ("FFmpeg failed: " ++ ex)) ∧
    (∀ ex, venv.retryEncode = ProcResult.otherError ex →
      (add_watermark_to_video env venv input output temp).outcome =
        Except.error ("FFmpeg failed: " ++ ex)) := by
  cases hre : venv.retryEncode <;>
    simp [add_watermark_to_video, hload, hprim, hre]

/-- Claim C7 amended witness: the amended statement at a concrete run whose
primary encode fails and whose retry succeeds. -/
theorem C7_retry_once_witness :
    envGeist.loadable = true ∧
    venvRetryOk.primaryEncode = ProcResult.calledProcessError "primary-error" ∧
    ((add_watermark_to_video envGeist venvRetryOk "in.mp4" "out.mp4" "wm.png").effects =
      [Effect.writeFile "wm.png",
       Effect.procRun (ffmpeg_cmd "in.mp4" "wm.png" "out.mp4" "copy"),
       Effect.procRun (ffmpeg_cmd "in.mp4" "wm.png" "out.mp4" "aac"),
       Effect.deleteFile "wm.png"] ∧
    (venvRetryOk.retryEncode = ProcResult.success →
      (add_watermark_to_video envGeist venvRetryOk "in.mp4" "out.mp4" "wm.png").outcome =
        Except.ok ()) ∧
    (∀ ex, venvRetryOk.retryEncode = ProcResult.calledProcessError ex →
      (add_watermark_to_video envGeist venvRetryOk "in.mp4" "out.mp4" "wm.png").outcome =
        Except.error ("FFmpeg failed: " ++ ex)) ∧
    (∀ ex, venvRetryOk.retryEncode = ProcResult.otherError ex →
      (add_watermark_to_video envGeist venvRetryOk "in.mp4" "out.mp4" "wm.png").outcome =
        Except.error ("FFmpeg failed: " ++ ex))) :=
  ⟨rfl, rfl, C7_retry_once envGeist venvRetryOk "in.mp4" "out.mp4" "wm.png"
    "primary-error" rfl rfl⟩

/-- Claim C8 (confirmed): on every exit path of add_watermark_to_video after
the transient raster has been created — primary success, retry success, retry
failure, and a non-CalledProcessError exception from either invocation — the
transient raster file is deleted before the function returns or its exception
propagates: the delete is the final effect of the trace on every encode
branch. The font-loadable hypothesis restricts to the runs in which the
transient raster is created at all (app.py line 168). -/
theorem C8_transient_cleanup (env : FontEnv) (venv : VideoEnv)
    (input output temp : String) (hload : env.loadable = true) :
    (add_watermark_to_video env venv input output temp).effects.getLast? =
      some (Effect.deleteFile temp) := by
  cases hpe : venv.primaryEncode <;> cases hre : venv.retryEncode <;>
    simp [add_watermark_to_video, hload, hpe, hre]

/-- Claim C8 witness: the cleanup is the last effect of a concrete run in
which both ffmpeg invocations failed. -/
theorem C8_transient_cleanup_witness :
    envGeist.loadable = true ∧
    (add_watermark_to_video envGeist venvRetryFailA "in.mp4" "out.mp4" "wm.png").effects.getLast? =
      some (Effect.deleteFile "wm.png") :=
  ⟨rfl, C8_transient_cleanup envGeist venvRetryFailA "in.mp4" "out.mp4" "wm.png" rfl⟩

end Watermark

namespace Watermark

/-- A completed entry stamped at time 0, used as the stale entry. -/
def staleInfo : TaskInfo := ⟨Status.completed, none, none, 0⟩

/-- A processing entry stamped at time 4000, fresh at sweep time 5000. -/
def freshInfo : TaskInfo := ⟨Status.processing, none, none, 4000⟩

/-- A registry holding the stale entry under id old and the fresh entry under
id new. -/
def tasksMixed : Tasks :=
  fun tid => if tid = "old" then some staleInfo
    else if tid = "new" then some freshInfo else none

/-- Claim C9 (confirmed): the eviction sweep removes exactly the entries older
than the 1-hour window: after cleanup_old_tasks at time now, an entry whose
age now - timestamp is strictly greater than 3600 is absent from subsequent
status reads, and an entry whose age is strictly less than 3600 is still
present, unchanged. -/
theorem C9_eviction_window (tasks : Tasks) (now : ℚ) (task_id : String)
    (info : TaskInfo) (hmem : tasks task_id = some info) :
    (now - info.timestamp > 3600 →
      status_route (cleanup_old_tasks tasks now) task_id = StatusResponse.notFound) ∧
    (now - info.timestamp < 3600 →
      status_route (cleanup_old_tasks tasks now) task_id = StatusResponse.ok info) := by
  constructor
  · intro h
    simp [status_route, cleanup_old_tasks, hmem, h]
  · intro h
    have h2 : ¬ (now - info.timestamp > 3600) := by linarith
    simp [status_route, cleanup_old_tasks, hmem, h2]

/-- Claim C9 witness: a sweep at time 5000 over a registry holding an entry of
age 5000 (greater than the window) and an entry of age 1000 (less than the
window): the first is gone from status reads, the second still present. -/
theorem C9_eviction_window_witness :
    (tasksMixed "old" = some staleInfo ∧
      ((5000 : ℚ) - staleInfo.timestamp > 3600 →
        status_route (cleanup_old_tasks tasksMixed 5000) "old" = StatusResponse.notFound)) ∧
    (tasksMixed "new" = some freshInfo ∧
      ((5000 : ℚ) - freshInfo.timestamp < 3600 →
        status_route (cleanup_old_tasks tasksMixed 5000) "new" = StatusResponse.ok freshInfo)) :=
  ⟨⟨rfl, (C9_eviction_window tasksMixed 5000 "old" staleInfo rfl).1⟩,
   ⟨rfl, (C9_eviction_window tasksMixed 5000 "new" freshInfo rfl).2⟩⟩

/-- Claim C10 (confirmed): update_task_status is an unconditional upsert
(TASKS[task_id] is assigned a fresh dict whether or not the id is present), so
a task evicted from the registry while its worker is still running — not found
after the sweep — becomes visible again with a terminal status as soon as that
worker next reports one. -/
theorem C10_upsert_after_eviction (tasks : Tasks) (now now2 : ℚ)
    (task_id : String) (info : TaskInfo) (res : Option TaskResult)
    (hmem : tasks task_id = some info)
    (hstale : now - info.timestamp > 3600) :
    status_route (cleanup_old_tasks tasks now) task_id = StatusResponse.notFound ∧
    status_route
        (update_task_status (cleanup_old_tasks tasks now) task_id
          Status.completed res none now2) task_id =
      StatusResponse.ok ⟨Status.completed, res, none, now2⟩ := by
  constructor
  · simp [status_route, cleanup_old_tasks, hmem, hstale]
  · simp [status_route, update_task_status]

/-- Claim C10 witness: the stale completed entry of tasksMixed is evicted at
time 5000, then its worker reports completed at time 5001 and the id is
visible again with the terminal entry. -/
theorem C10_upsert_after_eviction_witness :
    tasksMixed "old" = some staleInfo ∧ (5000 : ℚ) - staleInfo.timestamp > 3600 ∧
    (status_route (cleanup_old_tasks tasksMixed 5000) "old" = StatusResponse.notFound ∧
    status_route
        (update_task_status (cleanup_old_tasks tasksMixed 5000) "old"
          Status.completed (some ⟨"watermarked_old.png", "old.png", "image"⟩) none 5001) "old" =
      StatusResponse.ok ⟨Status.completed,
        some ⟨"watermarked_old.png", "old.png", "image"⟩, none, 5001⟩) :=
  ⟨rfl, by norm_num [staleInfo],
    C10_upsert_after_eviction tasksMixed 5000 5001 "old" staleInfo
      (some ⟨"watermarked_old.png", "old.png", "image"⟩) rfl (by norm_num [staleInfo])⟩

end Watermark
